import Mathlib

/-!
Verification of the pyrex experiment-materialisation engine
(`src/pyrex/*.py`) against its specification.

The Python sources are embedded shallowly:

* strings are Lean `String`s, with Python's `str.replace`, `in` (substring),
  `str.strip` and `str.split` re-implemented as executable functions over
  `List Char` so that every statement can be evaluated by the kernel;
* filesystem paths are lists of components (`List String`), the POSIX root
  being the component `"/"`;
* the filesystem itself is a snapshot value (`FS`) holding the regular
  files (with their contents) and the directories; functions that mutate
  the filesystem thread an `FS` explicitly and return it alongside an
  `Except` describing the Python exception, so that the state after a
  failure can be inspected;
* `subprocess` and git are collaborators: each adapter takes the
  collaborator's observable result (captured stdout and exit status) as an
  argument.
-/

deriving instance DecidableEq for Except

/-! ## Python string primitives -/

/-- Does `s` start with the pattern `pat`?  Helper for the substring
operations below. -/
def listStartsWith : List Char → List Char → Bool
  | _, [] => true
  | [], _ :: _ => false
  | a :: s, b :: p => a == b && listStartsWith s p

/-- Python's `pat in s` for strings: is `pat` a contiguous substring of `s`?
(The empty pattern is contained in every string, as in Python.) -/
def listContainsSub : List Char → List Char → Bool
  | [], pat => pat.isEmpty
  | s@(_ :: rest), pat => listStartsWith s pat || listContainsSub rest pat

/-- Auxiliary scan for `listReplace`.  While `skip` is positive the characters
of an already-matched occurrence are being consumed; at `skip = 0` the scanner
tests for a fresh occurrence of `old` and, on a match, emits `new` and starts
skipping the matched characters. -/
def listReplaceAux (old new : List Char) : List Char → Nat → List Char
  | [], _ => []
  | _ :: rest, skip + 1 => listReplaceAux old new rest skip
  | c :: rest, 0 =>
    if !old.isEmpty && listStartsWith (c :: rest) old then
      new ++ listReplaceAux old new rest (old.length - 1)
    else
      c :: listReplaceAux old new rest 0

/-- Python's `s.replace(old, new)` for a non-empty `old`: one left-to-right
pass replacing every non-overlapping occurrence.  (For an empty `old` this is
the identity; the sources only ever replace non-empty literal tokens.) -/
def listReplace (s old new : List Char) : List Char :=
  listReplaceAux old new s 0

/-- Python's `s.replace(old, new)` on `String`. -/
def pyReplace (s old new : String) : String :=
  String.mk (listReplace s.data old.data new.data)

/-- Python's `old in s` on `String`. -/
def pyContains (s pat : String) : Bool :=
  listContainsSub s.data pat.data

/-- Python's `str.strip()` (up to the exact whitespace set): leading and
trailing whitespace removed. -/
def pyStrip (s : String) : String :=
  String.mk (((s.data.dropWhile Char.isWhitespace).reverse.dropWhile
    Char.isWhitespace).reverse)

/-- Python's `s.split("/")`: the (possibly empty) chunks of `s` between
occurrences of `/`. -/
def splitSlash : List Char → List Char → List String
  | [], acc => [String.mk acc.reverse]
  | c :: rest, acc =>
    if c == '/' then String.mk acc.reverse :: splitSlash rest []
    else splitSlash rest (c :: acc)

/-! ## Paths

A string path is interpreted through `pathlib`: `pyPathParts` gives
`PurePath(s).parts` up to the normalisation pathlib performs (empty
components and `.` components dropped; the root part `/` is not listed,
absoluteness being tracked by `pyPathIsAbsolute`). -/

/-- `pathlib.PurePath(s).is_absolute()` for POSIX paths. -/
def pyPathIsAbsolute (s : String) : Bool :=
  s.data.head? == some '/'

/-- The components of `pathlib.PurePath(s)`: split on `/`, dropping empty
chunks and `.` chunks, as pathlib's normalisation does.  `..` components are
preserved. -/
def pyPathParts (s : String) : List String :=
  (splitSlash s.data []).filter (fun c => c != "" && c != ".")

/-! ## `ExperimentConfig` (src/pyrex/experiment.py:20-64) -/

/-- The filename constant `EXPERIMENT_CONFIG_FILE` of
src/pyrex/experiment.py:17. -/
def EXPERIMENT_CONFIG_FILE : String := "pyrex_experiment.json"

/-- The `ExperimentConfig` dataclass of src/pyrex/experiment.py:20-25:
a command line, the destination path, the required files (workspace-relative
path strings) and the execution directory. -/
structure ExperimentConfig where
  command : String
  output_path : String
  files : List String := []
  exec_dir : String := "."
  deriving Repr, DecidableEq

/-- `ExperimentConfig.__post_init__` (src/pyrex/experiment.py:27-43), the
construction-time validation: the command is stripped and must be non-empty;
no path among `files + [exec_dir]` may be absolute or contain a `..`
component; finally duplicates in `files` are silently collapsed
(`list(set(...))`, whose order Python leaves unspecified; `List.dedup` is
used here, and only membership and duplicate-freeness of the result are ever
relied upon).  The `.error` values are the `InvalidExperimentError` messages
of the source. -/
def ExperimentConfig.postInit (cfg : ExperimentConfig) :
    Except String ExperimentConfig :=
  let command := pyStrip cfg.command
  if command == "" then
    .error "'command' must be specified"
  else
    let paths := cfg.files ++ [cfg.exec_dir]
    if paths.any pyPathIsAbsolute then
      .error "Experiment config should not contain absolute paths"
    else if paths.any (fun p => (pyPathParts p).contains "..") then
      .error "Paths containing '../' are not allowed in the experiment config"
    else
      .ok { cfg with command := command, files := cfg.files.dedup }

/-! ## Filesystem model -/

/-- A snapshot of the relevant part of the filesystem.  A path is the list of
its components from the root, e.g. `/out/e1` is `["/", "out", "e1"]`.
`files` lists the regular files with their contents, `dirs` the
directories. -/
structure FS where
  files : List (List String × String)
  dirs : List (List String)
  deriving Repr, DecidableEq

/-- `Path.is_file()`: a regular file exists at `p`. -/
def FS.isFile (fs : FS) (p : List String) : Bool :=
  fs.files.any (fun e => e.1 == p)

/-- `Path.is_dir()`: a directory exists at `p`. -/
def FS.isDir (fs : FS) (p : List String) : Bool :=
  fs.dirs.contains p

/-- `Path.exists()`: something (file or directory) exists at `p`. -/
def FS.existsPath (fs : FS) (p : List String) : Bool :=
  fs.isFile p || fs.isDir p

/-- The entries yielded by `p.iterdir()`: the recorded files and directories
that lie immediately below `p` (their absolute paths, as in pathlib). -/
def FS.childrenOf (fs : FS) (p : List String) : List (List String) :=
  (fs.files.map Prod.fst ++ fs.dirs).filter
    (fun q => !q.isEmpty && q.dropLast == p)

/-- The content of the regular file at `p`, when one exists. -/
def FS.readFile (fs : FS) (p : List String) : Option String :=
  (fs.files.find? (fun e => e.1 == p)).map (fun e => e.2)

/-- Every non-empty prefix of `p`: the directories that
`p.mkdir(parents=True)` guarantees to exist. -/
def ancestorsOf (p : List String) : List (List String) :=
  (List.range p.length).map (fun k => p.take (k + 1))

/-- `p.mkdir(exist_ok=True, parents=True)`: record `p` and all its ancestors
as directories. -/
def FS.mkdirParents (fs : FS) (p : List String) : FS :=
  { fs with dirs := ancestorsOf p ++ fs.dirs }

/-- `open(p, "w").write(content)`: create or overwrite the regular file at
`p`. -/
def FS.writeFile (fs : FS) (p : List String) (content : String) : FS :=
  { fs with files := (p, content) :: fs.files.filter (fun e => e.1 != p) }

/-- `shutil.copy(src, dest)`, content only (metadata is not modelled).  When
no file exists at `src` the state is returned unchanged; `Experiment.create`
only copies files whose existence it has already checked. -/
def FS.copyFile (fs : FS) (src dest : List String) : FS :=
  match fs.files.find? (fun e => e.1 == src) with
  | some e => fs.writeFile dest e.2
  | none => fs

/-! ## `Experiment.create` (src/pyrex/experiment.py:96-147) -/

/-- The exceptions `Experiment.create` can raise. -/
inductive CreateError where
  /-- `NotADirectoryError("Destination path should be a directory")`. -/
  | notADirectory
  /-- `FileExistsError("Destination path is non-empty")`. -/
  | fileExists
  /-- `FileNotFoundError(f"Source directory '{src}' missing file '{file}'")`:
  carries the offending required file. -/
  | fileNotFound (file : String)
  deriving Repr, DecidableEq

/-- The `files` entry of the config dumped into the destination
(src/pyrex/experiment.py:140-141): `asdict` copies the config, then the two
provenance filenames are appended.  Re-loading the experiment from disk
(`ExperimentConfig.load`) recovers exactly this list, the JSON round trip
being lossless on a list of strings. -/
def storedManifest (cfg : ExperimentConfig) : List String :=
  cfg.files ++ [EXPERIMENT_CONFIG_FILE, ".gitignore"]

/-- The `.gitignore` text computed at src/pyrex/experiment.py:136:
`"*\n" + "\n!".join(config.files)` (the Python `join` is an intercalation). -/
def gitignoreText (files : List String) : String :=
  "*\n" ++ match files with
  | [] => ""
  | f :: rest => rest.foldl (fun acc g => acc ++ "\n!" ++ g) f

/-- Modelled from the spec (§4.4 WritingProvenance, the source of claim C3):
"a `.gitignore` whose content is exactly: a line `*` followed by one
`!relative_path` line per required file (including the two provenance
files)", the provenance files being the resolved spec file and `.gitignore`
itself. -/
def specGitignoreText (files : List String) : String :=
  "*" ++ String.join ((files ++ [EXPERIMENT_CONFIG_FILE, ".gitignore"]).map
    (fun f => "\n!" ++ f))

/-- A stand-in for the JSON text dumped at src/pyrex/experiment.py:144-145;
no claim consumes this text itself (the reloaded manifest is
`storedManifest`), only the fact that a file is written at the config path. -/
def storedConfigText (cfg : ExperimentConfig) : String :=
  (storedManifest cfg).foldl (fun acc f => acc ++ "\n" ++ f) cfg.command

/-- One step of the copy loop of src/pyrex/experiment.py:132-134: the
destination file's parent directories are created, then the file is copied. -/
def copyStep (src dest : List String) (acc : FS) (f : String) : FS :=
  (acc.mkdirParents ((dest ++ pyPathParts f).dropLast)).copyFile
    (src ++ pyPathParts f) (dest ++ pyPathParts f)

/-- `Experiment.create` (src/pyrex/experiment.py:96-147), for a config whose
`output_path` resolves to `dest` and a source root `src`, on the snapshot
`fs`; the interactive confirmation (`prompt=True`) is skipped, as the CLI
layer is out of scope.  Checks in source order: a non-directory destination
is `NotADirectoryError`; a non-empty destination directory is
`FileExistsError`; then each required file must exist under `src`, the first
missing one being reported; only after all checks does `dest.mkdir` run,
followed by the copies, the `.gitignore` write and the config dump.  The
resulting state is returned alongside the outcome, also on failure. -/
def Experiment.create (fs : FS) (src dest : List String)
    (cfg : ExperimentConfig) : Except CreateError Unit × FS :=
  if fs.existsPath dest && !fs.isDir dest then
    (.error .notADirectory, fs)
  else if fs.existsPath dest && !(fs.childrenOf dest).isEmpty then
    (.error .fileExists, fs)
  else
    match cfg.files.find? (fun f => !fs.isFile (src ++ pyPathParts f)) with
    | some f => (.error (.fileNotFound f), fs)
    | none =>
      let fs1 := fs.mkdirParents dest
      let fs2 := cfg.files.foldl (copyStep src dest) fs1
      let fs3 := fs2.writeFile (dest ++ [".gitignore"]) (gitignoreText cfg.files)
      let fs4 := fs3.writeFile (dest ++ [EXPERIMENT_CONFIG_FILE])
        (storedConfigText cfg)
      (.ok (), fs4)

/-! ## `Experiment.validate_workdir` and `Experiment.run`
(src/pyrex/experiment.py:168-200) -/

/-- The Python exceptions that can arise inside `_validate_subdir`. -/
inductive PyException where
  /-- `NameError`: `_validate_subdir` is a `@staticmethod` whose body
  nevertheless refers to `self` (src/pyrex/experiment.py:172), so meeting a
  subdirectory raises `NameError: name 'self' is not defined`. -/
  | nameError
  /-- `ValueError`: `list.remove(x)` with `x` not in the list
  (src/pyrex/experiment.py:173). -/
  | valueError
  deriving Repr, DecidableEq

/-- Python's `list.remove(x)`: drop the first occurrence of `x`, or `none`
(`ValueError`) when `x` does not occur. -/
def removeFirst : List (List String) → List String →
    Option (List (List String))
  | [], _ => none
  | x :: xs, y => if x == y then some xs else (removeFirst xs y).map (x :: ·)

/-- `Experiment._validate_subdir` (src/pyrex/experiment.py:168-174) applied
to the entry list of `subdir.iterdir()`.  For each entry: a directory entry
triggers the recursive call `self._validate_subdir(remaining, f)`, which
raises `NameError` (the method is a `@staticmethod`, `self` is unbound), so
no recursion ever happens; otherwise `remaining.remove(f)` removes the
entry's path — the absolute path yielded by `iterdir` — from `remaining`,
raising `ValueError` when it is not present. -/
def validateSubdir (fs : FS) : List (List String) → List (List String) →
    Except PyException (List (List String))
  | remaining, [] => .ok remaining
  | remaining, f :: rest =>
    if fs.isDir f then .error .nameError
    else
      match removeFirst remaining f with
      | none => .error .valueError
      | some remaining' => validateSubdir fs remaining' rest

/-- The outcomes of `Experiment.validate_workdir`. -/
inductive WorkdirError where
  /-- `InvalidExperimentError("Working directory missing required files.")`,
  raised when `_validate_subdir` raises `ValueError`. -/
  | missingFiles
  /-- `InvalidExperimentError("Working directory contains unexpected files.
  Has the experiment already been run?")`, raised when entries of the
  manifest remain unmatched. -/
  | unexpectedFiles
  /-- An exception other than `ValueError` propagating out of
  `_validate_subdir` (only `ValueError` is caught at
  src/pyrex/experiment.py:185-188). -/
  | uncaught (e : PyException)
  deriving Repr, DecidableEq

/-- `Experiment.validate_workdir` (src/pyrex/experiment.py:176-192) for an
experiment whose loaded manifest (`self.files`, the config's `files` as
relative paths) is `manifest` and whose root is `root`. -/
def validate_workdir (manifest : List (List String)) (fs : FS)
    (root : List String) : Except WorkdirError Unit :=
  match validateSubdir fs manifest (fs.childrenOf root) with
  | .error .valueError => .error .missingFiles
  | .error .nameError => .error (.uncaught .nameError)
  | .ok remaining => if remaining.isEmpty then .ok () else .error .unexpectedFiles

/-- `Experiment.run` (src/pyrex/experiment.py:194-200): unless
`skip_validation` is set, `validate_workdir` runs first and its exception
propagates; `.ok ()` means the subprocess was invoked (the `switch_dir`
scoped change of directory and the subprocess itself are collaborators). -/
def Experiment.run (skipValidation : Bool) (manifest : List (List String))
    (fs : FS) (root : List String) : Except WorkdirError Unit :=
  if skipValidation then .ok ()
  else
    match validate_workdir manifest fs root with
    | .error e => .error e
    | .ok () => .ok ()

/-! ## `PyrexWorkspace.parse_experiment_path`
(src/pyrex/workspace.py:132-154) -/

/-- The context values a `PyrexWorkspace` supplies to the token
substitutions: `str(self.get_repo_root())`, `str(self._workspace_root)`,
`self._workspace_root.name`, `self.get_branch()`, `self.get_version()` and
`utils.timestamp()`.  They are taken as given strings (the git and version
collaborators are out of scope; a workspace inside a git repository yields
strings for all of them). -/
structure PathContext where
  repo_root : String
  workspace_root : String
  workspace_name : String
  branch : String
  version : String
  timestamp : String
  deriving Repr

/-- How `parse_experiment_path` can fail. -/
inductive ParseError where
  /-- `AttributeError`: line 139 calls `self.get_worktree_root()`, a method
  `PyrexWorkspace` does not define (no definition anywhere in the package),
  so a template still containing `{repo_name}` at that point raises. -/
  | attrError
  /-- `InvalidPathError(f"Experiment path '{path}' is not absolute")`
  (src/pyrex/workspace.py:151-152). -/
  | invalidPath
  deriving Repr, DecidableEq

/-- `PyrexWorkspace.parse_experiment_path` (src/pyrex/workspace.py:132-154):
a chain of guarded `str.replace` substitutions in source order — repo_root,
workspace_root, repo_name, workspace_name, branch, version, timestamp —
each applied to the string produced by the previous steps, followed by the
absoluteness check on the result. -/
def parse_experiment_path (ctx : PathContext) (template : String) :
    Except ParseError String :=
  let path := template
  let path := if pyContains path "\x7brepo_root\x7d" then
    pyReplace path "\x7brepo_root\x7d" ctx.repo_root else path
  let path := if pyContains path "\x7bworkspace_root\x7d" then
    pyReplace path "\x7bworkspace_root\x7d" ctx.workspace_root else path
  if pyContains path "\x7brepo_name\x7d" then .error .attrError
  else
    let path := if pyContains path "\x7bworkspace_name\x7d" then
      pyReplace path "\x7bworkspace_name\x7d" ctx.workspace_name else path
    let path := if pyContains path "\x7bbranch\x7d" then
      pyReplace path "\x7bbranch\x7d" ctx.branch else path
    let path := if pyContains path "\x7bversion\x7d" then
      pyReplace path "\x7bversion\x7d" ctx.version else path
    let path := if pyContains path "\x7btimestamp\x7d" then
      pyReplace path "\x7btimestamp\x7d" ctx.timestamp else path
    if pyPathIsAbsolute path then .ok path else .error .invalidPath

/-- Does `t` contain none of the tokens `parse_experiment_path` recognises? -/
def noRecognizedToken (t : String) : Bool :=
  !(pyContains t "\x7brepo_root\x7d" || pyContains t "\x7bworkspace_root\x7d" ||
    pyContains t "\x7brepo_name\x7d" || pyContains t "\x7bworkspace_name\x7d" ||
    pyContains t "\x7bbranch\x7d" || pyContains t "\x7bversion\x7d" ||
    pyContains t "\x7btimestamp\x7d")

/-! ## `dump_config` (src/pyrex/utils.py:70-85) and `JSONConfigFile.dump`
(src/pyrex/base.py:26-34) -/

/-- `InvalidConfigError("Data serialization failed! Config will *not* be
written to file.")` — the error `dump_config` raises when the dumper fails;
also stands for the exception `JSONConfigFile.dump` lets propagate when
`json.dumps` fails on the record. -/
inductive DumpError where
  | serializationFailed
  deriving Repr, DecidableEq

/-- `dump_config` (src/pyrex/utils.py:70-85): the whole record is serialised
in memory first (`dumper(contents)`, modelling `yaml.safe_dump`, `.error`
where Python raises `TypeError`/`OverflowError`); only on success is the
target opened and written.  The empty-contents branch is a log line with no
effect and is not modelled. -/
def dump_config {α : Type} (contents : α) (filepath : List String)
    (dumper : α → Except Unit String) (fs : FS) :
    Except DumpError Unit × FS :=
  match dumper contents with
  | .error _ => (.error .serializationFailed, fs)
  | .ok s => (.ok (), fs.writeFile filepath s)

/-- `JSONConfigFile.dump` (src/pyrex/base.py:26-34): `json.dumps` is tried on
the whole record first; on `TypeError`/`OverflowError` an exception
propagates (the `raise exc(...)` at line 31) before the file is opened; on
success the file is opened and the serialised record written. -/
def JSONConfigFile.dump {α : Type} (contents : α) (filepath : List String)
    (jsonDumps : α → Except Unit String) (fs : FS) :
    Except DumpError Unit × FS :=
  match jsonDumps contents with
  | .error _ => (.error .serializationFailed, fs)
  | .ok s => (.ok (), fs.writeFile filepath s)

/-! ## Git adapters (src/pyrex/utils.py:142-174,
src/pyrex/workspace.py:87-120) -/

/-- The observable result of one `subprocess.run(["git", ...])` call:
captured stdout and the process exit status. -/
structure GitResult where
  stdout : String
  returncode : Nat
  deriving Repr, DecidableEq

/-- `GitError` (src/pyrex/exceptions.py:26-37), wrapping the
`CalledProcessError` that `check=True` raises on a non-zero exit. -/
inductive GitFailure where
  | gitError
  deriving Repr, DecidableEq

/-- `git_run_command` (src/pyrex/utils.py:142-161) at its default arguments
(`capture_output=True`, `strip_output=True`): `check=True` turns a non-zero
exit into `CalledProcessError`, re-raised as `GitError`; otherwise the
stripped stdout is returned. -/
def git_run_command (res : GitResult) : Except GitFailure String :=
  if res.returncode != 0 then .error .gitError else .ok (pyStrip res.stdout)

/-- `PyrexWorkspace.get_repo_root` (src/pyrex/workspace.py:87-96): `GitError`
is caught and mapped to `None`; on success the stripped stdout (the
`pathlib.Path` resolution of the already-absolute toplevel is not
modelled). -/
def get_repo_root (res : GitResult) : Option String :=
  match git_run_command res with
  | .error _ => none
  | .ok s => some (pyStrip s)

/-- `PyrexWorkspace.get_branch` (src/pyrex/workspace.py:98-109): `GitError`
caught, `None` returned. -/
def get_branch (res : GitResult) : Option String :=
  match git_run_command res with
  | .error _ => none
  | .ok s => some (pyStrip s)

/-- `PyrexWorkspace.get_commit` (src/pyrex/workspace.py:111-120): `GitError`
caught, `None` returned. -/
def get_commit (res : GitResult) : Option String :=
  match git_run_command res with
  | .error _ => none
  | .ok s => some (pyStrip s)

/-- `repo_is_dirty` (src/pyrex/utils.py:164-174): `subprocess.run` is called
with `check=True`, so a non-zero exit of `git diff-index --quiet HEAD --`
(the exit a dirty tree produces) raises `CalledProcessError`, re-raised as
`GitError`; only on a zero exit does control reach
`return bool(result.returncode)`. -/
def repo_is_dirty (res : GitResult) : Except GitFailure Bool :=
  if res.returncode != 0 then .error .gitError
  else .ok (res.returncode != 0)

/-! ## `PyrexWorkspace.search_parents` (src/pyrex/workspace.py:57-69) -/

/-- `PurePath.is_relative_to(base)`: for fully resolved absolute paths,
component-wise prefix containment. -/
def isRelativeTo (p base : List String) : Bool :=
  base.isPrefixOf p

/-- `Path.parent`: drop the last component; the parent of the root (or of a
single-component path) is itself, as in pathlib. -/
def parentDir (p : List String) : List String :=
  if p.length ≤ 1 then p else p.dropLast

/-- The `while` loop of `PyrexWorkspace.search_parents`
(src/pyrex/workspace.py:62-65), with explicit fuel, one unit per iteration:
while the parent of `search_dir` is relative to the home directory, test
`has_workspace_file(search_dir)` and on failure move to the parent;
when the guard fails, raise `InvalidWorkspaceError` (the `.error` case).
`search_parents` below supplies more fuel than the loop can consume
whenever home lies strictly below the filesystem root (for `home = ["/"]`
the Python loop itself need not terminate, the parent of the root being the
root). -/
def searchLoop (hasWsFile : List String → Bool) (home : List String) :
    Nat → List String → Except Unit (List String)
  | 0, _ => .error ()
  | fuel + 1, d =>
    if isRelativeTo (parentDir d) home then
      if hasWsFile d then .ok d
      else searchLoop hasWsFile home fuel (parentDir d)
    else .error ()

/-- `PyrexWorkspace.search_parents` (src/pyrex/workspace.py:57-69), starting
from the resolved absolute path `p`, with `hasWsFile` modelling
`PyrexWorkspace.has_workspace_file` (the presence of `.pyrex_workspace.yaml`).
`WorkspaceInput.search_parents` (src/pyrex/config.py:319-341) runs the same
guarded loop; its extra `pyproject.toml` branch always falls through
(`load_from_pyproject` raises `NotImplementedError`, caught and passed), so
the model covers it as well. -/
def search_parents (hasWsFile : List String → Bool) (home p : List String) :
    Except Unit (List String) :=
  searchLoop hasWsFile home (p.length + 1) p

/-! ## Concrete fixtures

Small snapshots used to evaluate the model on concrete inputs: a source
tree `/w`, a destination `/out/e1`. -/

/-- The source root `/w`. -/
def srcRoot : List String := ["/", "w"]

/-- The destination `/out/e1`. -/
def destRoot : List String := ["/", "out", "e1"]

/-- A snapshot where `/w` holds only `a.txt` and `/out/e1` does not exist. -/
def fsFresh : FS :=
  { files := [(["/", "w", "a.txt"], "A")], dirs := [["/", "w"]] }

/-- A snapshot where `/w` holds `a.txt` and `b.txt`. -/
def fsTwo : FS :=
  { files := [(["/", "w", "a.txt"], "A"), (["/", "w", "b.txt"], "B")],
    dirs := [["/", "w"]] }

/-- A valid config requiring only `a.txt`; `postInit` maps it to itself. -/
def cfgOne : ExperimentConfig :=
  { command := "python a.txt", output_path := "/out/e1", files := ["a.txt"] }

/-- A valid config requiring `a.txt` and `b.txt`. -/
def cfgTwo : ExperimentConfig :=
  { command := "python a.txt", output_path := "/out/e1",
    files := ["a.txt", "b.txt"] }

/-! ## Claim C2 -/

/-- C2: the claim says a freshly materialised experiment re-validates with no
missing and no unexpected files.  On the code it does not: here
`ExperimentConfig.postInit` accepts the config, `Experiment.create`
succeeds on a fresh `/out/e1`, yet `Experiment.validate_workdir` on the
resulting directory — checked against the stored manifest, exactly what
re-loading the experiment yields — raises
`InvalidExperimentError("Working directory missing required files.")`:
`remaining.remove(f)` compares the absolute paths `iterdir` yields against
the manifest's relative paths, so the very first entry raises `ValueError`. -/
theorem claim_C2 :
    ExperimentConfig.postInit cfgOne = .ok cfgOne
    ∧ (Experiment.create fsFresh srcRoot destRoot cfgOne).1 = .ok ()
    ∧ validate_workdir ((storedManifest cfgOne).map pyPathParts)
        (Experiment.create fsFresh srcRoot destRoot cfgOne).2 destRoot
      = .error .missingFiles := by decide

/-! ## Claim C3 -/

/-- C3: the claim says the written `.gitignore` is a `*` line followed by one
`!file` line per required file, provenance files included.  The code's
`"*\n" + "\n!".join(config.files)` (a) omits the `!` in front of the first
required file and (b) runs before the provenance filenames are appended to
the file list, so neither the resolved config file nor `.gitignore` itself
is listed.  With `files = ["a.txt", "b.txt"]` the code writes
`*`, `a.txt`, `!b.txt` where the claim demands
`*`, `!a.txt`, `!b.txt`, `!pyrex_experiment.json`, `!.gitignore`; the last
conjunct shows the faulty text is what `Experiment.create` actually leaves
at `dest/.gitignore`. -/
theorem claim_C3 :
    gitignoreText ["a.txt", "b.txt"] = "*\na.txt\n!b.txt"
    ∧ specGitignoreText ["a.txt", "b.txt"]
        = "*\n!a.txt\n!b.txt\n!pyrex_experiment.json\n!.gitignore"
    ∧ (gitignoreText ["a.txt", "b.txt"]
        == specGitignoreText ["a.txt", "b.txt"]) = false
    ∧ (Experiment.create fsTwo srcRoot destRoot cfgTwo).2.readFile
        (destRoot ++ [".gitignore"]) = some "*\na.txt\n!b.txt" := by decide

/-! ## Claim C5 -/

/-- A context whose branch name smuggles in the `{version}` token. -/
def ctxBranchInjection : PathContext :=
  { repo_root := "/r", workspace_root := "/w", workspace_name := "w",
    branch := "\x7bversion\x7d", version := "1.0", timestamp := "t" }

/-- C5, counterexample: the claim says an already-inserted value is never
re-substituted — "a branch name containing `{version}` is not expanded".
With the branch named `{version}` and version `1.0`, resolving the template
`/out/{branch}` yields `/out/1.0`, not `/out/{version}`: the `{version}`
step runs after the `{branch}` step and operates on the already-substituted
string.  The third conjunct records a second failing input for the same
sentence's "substitutes each recognized token": a template containing
`{repo_name}` raises `AttributeError`, because line 139 calls
`self.get_worktree_root()`, which `PyrexWorkspace` does not define. -/
theorem claim_C5_cex :
    parse_experiment_path ctxBranchInjection "/out/\x7bbranch\x7d"
      = .ok "/out/1.0"
    ∧ ("/out/1.0" == "/out/\x7bversion\x7d") = false
    ∧ parse_experiment_path ctxBranchInjection "/e/\x7brepo_name\x7d"
      = .error .attrError := by decide

/-! ## Claim C9 -/

/-- C9: the three read-only detection operations of `PyrexWorkspace`
(`get_repo_root`, `get_branch`, `get_commit`) do map a non-zero git exit
status to `None` and return normally (first conjunct).  The dirtiness check
does not: `repo_is_dirty` calls `subprocess.run` with `check=True`, so the
non-zero exit that `git diff-index --quiet HEAD --` produces on a dirty
tree raises `GitError` (second conjunct, at exit status 1), and the
function can only ever return `False` — the `True` branch of
`bool(result.returncode)` is unreachable (third conjunct). -/
theorem claim_C9 :
    (∀ res : GitResult, res.returncode ≠ 0 →
      get_repo_root res = none ∧ get_branch res = none ∧ get_commit res = none)
    ∧ repo_is_dirty { stdout := "", returncode := 1 } = .error .gitError
    ∧ (∀ res : GitResult, repo_is_dirty res =
        if res.returncode == 0 then .ok false else .error .gitError) := by
  refine ⟨fun res h => ?_, by decide, fun res => ?_⟩
  · have hb : (res.returncode != 0) = true := by simpa using h
    simp [get_repo_root, get_branch, get_commit, git_run_command, hb]
  · cases hz : res.returncode == 0 with
    | false =>
      have hb : (res.returncode != 0) = true := by simp [bne, hz]
      simp [repo_is_dirty, hb, hz]
    | true =>
      have hb : (res.returncode != 0) = false := by simp [bne, hz]
      have h0 : res.returncode = 0 := by simpa using hz
      simp [repo_is_dirty, hb, hz, h0]

/-! ## Claim C8 -/

/-- C8: both config-dump operations serialise the whole record in memory
first; when the serialiser fails they raise
(`InvalidConfigError` in `dump_config`, the re-raised exception in
`JSONConfigFile.dump`) and return the filesystem unchanged — in particular
the content previously on disk at the target path is untouched, the target
never having been opened for writing. -/
theorem claim_C8 {α : Type} (contents : α) (filepath : List String)
    (dumper jsonDumps : α → Except Unit String) (fs : FS)
    (hd : dumper contents = .error ()) (hj : jsonDumps contents = .error ()) :
    dump_config contents filepath dumper fs = (.error .serializationFailed, fs)
    ∧ JSONConfigFile.dump contents filepath jsonDumps fs
        = (.error .serializationFailed, fs)
    ∧ (dump_config contents filepath dumper fs).2.readFile filepath
        = fs.readFile filepath
    ∧ (JSONConfigFile.dump contents filepath jsonDumps fs).2.readFile filepath
        = fs.readFile filepath := by
  simp [dump_config, JSONConfigFile.dump, hd, hj]

/-- A snapshot with a pre-existing config file at `/w/cfg.yaml`. -/
def fsOldConfig : FS :=
  { files := [(["/", "w", "cfg.yaml"], "old")], dirs := [["/", "w"]] }

/-- C8, witness: a serialiser that always fails, against a snapshot holding
an old config file: both dumps report the failure and leave the old content
in place. -/
theorem claim_C8_witness :
    dump_config () ["/", "w", "cfg.yaml"] (fun _ => .error ()) fsOldConfig
        = (.error .serializationFailed, fsOldConfig)
    ∧ JSONConfigFile.dump () ["/", "w", "cfg.yaml"] (fun _ => .error ())
        fsOldConfig = (.error .serializationFailed, fsOldConfig)
    ∧ (dump_config () ["/", "w", "cfg.yaml"] (fun _ => .error ())
        fsOldConfig).2.readFile ["/", "w", "cfg.yaml"]
        = fsOldConfig.readFile ["/", "w", "cfg.yaml"]
    ∧ (JSONConfigFile.dump () ["/", "w", "cfg.yaml"] (fun _ => .error ())
        fsOldConfig).2.readFile ["/", "w", "cfg.yaml"]
        = fsOldConfig.readFile ["/", "w", "cfg.yaml"] :=
  claim_C8 () ["/", "w", "cfg.yaml"] (fun _ => .error ()) (fun _ => .error ())
    fsOldConfig rfl rfl

/-! ## Claim C6 -/

/-- `ExperimentConfig.postInit` written as a plain chain of conditionals
(the `let`s of the definition unfolded); used to reason by cases on the
three checks. -/
theorem postInit_eq (cfg : ExperimentConfig) :
    ExperimentConfig.postInit cfg =
      if (pyStrip cfg.command == "") = true then
        .error "'command' must be specified"
      else if ((cfg.files ++ [cfg.exec_dir]).any pyPathIsAbsolute) = true then
        .error "Experiment config should not contain absolute paths"
      else if ((cfg.files ++ [cfg.exec_dir]).any
          (fun p => (pyPathParts p).contains "..")) = true then
        .error "Paths containing '../' are not allowed in the experiment config"
      else
        .ok { cfg with
          command := pyStrip cfg.command
          files := cfg.files.dedup } := rfl

/-- C6: `ExperimentConfig.postInit` fails fast — an empty-after-stripping
command, an absolute required-file entry, or an entry with a `..` segment
each yield an `InvalidExperimentError` (never a silently normalised `.ok`),
while duplicate required-file entries are not an error: a config passing the
three checks is accepted with its file list silently de-duplicated (same
members, no duplicates). -/
theorem claim_C6 (cfg : ExperimentConfig) :
    (pyStrip cfg.command = "" →
      ExperimentConfig.postInit cfg = .error "'command' must be specified")
    ∧ ((∃ f ∈ cfg.files, pyPathIsAbsolute f = true) →
        ∃ msg, ExperimentConfig.postInit cfg = .error msg)
    ∧ ((∃ f ∈ cfg.files, (pyPathParts f).contains ".." = true) →
        ∃ msg, ExperimentConfig.postInit cfg = .error msg)
    ∧ (∀ out, ExperimentConfig.postInit cfg = .ok out →
        out.files.Nodup ∧ ∀ f, f ∈ out.files ↔ f ∈ cfg.files)
    ∧ (pyStrip cfg.command ≠ "" →
        (∀ p ∈ cfg.files ++ [cfg.exec_dir],
          pyPathIsAbsolute p = false ∧ (pyPathParts p).contains ".." = false) →
        ExperimentConfig.postInit cfg = .ok { cfg with
          command := pyStrip cfg.command, files := cfg.files.dedup }) := by
  refine ⟨fun h => ?_, fun h => ?_, fun h => ?_, fun out h => ?_, fun h1 h2 => ?_⟩
  · rw [postInit_eq, if_pos (by simp [h])]
  · by_cases hc : pyStrip cfg.command = ""
    · exact ⟨"'command' must be specified", by rw [postInit_eq, if_pos (by simp [hc])]⟩
    · obtain ⟨f, hf, habs⟩ := h
      have hany : ((cfg.files ++ [cfg.exec_dir]).any pyPathIsAbsolute) = true :=
        List.any_eq_true.mpr ⟨f, List.mem_append_left _ hf, habs⟩
      exact ⟨"Experiment config should not contain absolute paths",
        by rw [postInit_eq, if_neg (fun hcond => hc (by simpa using hcond)),
          if_pos hany]⟩
  · by_cases hc : pyStrip cfg.command = ""
    · exact ⟨"'command' must be specified", by rw [postInit_eq, if_pos (by simp [hc])]⟩
    · by_cases ha : ((cfg.files ++ [cfg.exec_dir]).any pyPathIsAbsolute) = true
      · exact ⟨"Experiment config should not contain absolute paths",
          by rw [postInit_eq, if_neg (fun hcond => hc (by simpa using hcond)),
            if_pos ha]⟩
      · obtain ⟨f, hf, hdd⟩ := h
        have hany : ((cfg.files ++ [cfg.exec_dir]).any
            (fun p => (pyPathParts p).contains "..")) = true :=
          List.any_eq_true.mpr ⟨f, List.mem_append_left _ hf, hdd⟩
        exact ⟨"Paths containing '../' are not allowed in the experiment config",
          by rw [postInit_eq, if_neg (fun hcond => hc (by simpa using hcond)),
            if_neg ha, if_pos hany]⟩
  · rw [postInit_eq] at h
    split at h
    · simp at h
    · split at h
      · simp at h
      · split at h
        · simp at h
        · rw [Except.ok.injEq] at h
          subst h
          exact ⟨List.nodup_dedup _, fun f => List.mem_dedup⟩
  · have ha : ((cfg.files ++ [cfg.exec_dir]).any pyPathIsAbsolute) = false :=
      List.any_eq_false.mpr (fun p hp => by simpa using (h2 p hp).1)
    have hd : ((cfg.files ++ [cfg.exec_dir]).any
        (fun p => (pyPathParts p).contains "..")) = false :=
      List.any_eq_false.mpr (fun p hp => by simpa using (h2 p hp).2)
    rw [postInit_eq, if_neg (fun hcond => h1 (by simpa using hcond)),
      if_neg (fun hcond => Bool.false_ne_true (ha ▸ hcond)),
      if_neg (fun hcond => Bool.false_ne_true (hd ▸ hcond))]

/-! ## Claim C1 -/

/-- C1: when the destination does not yet exist and some required file is
missing from the source root, `Experiment.create` raises
`FileNotFoundError` naming a missing file, before `dest.mkdir` runs: the
returned filesystem is the input one unchanged, so in particular the
destination directory still does not exist afterwards (no partial
directory). -/
theorem claim_C1 (fs : FS) (src dest : List String) (cfg : ExperimentConfig)
    (hdest : fs.existsPath dest = false)
    (hmiss : ∃ f ∈ cfg.files, fs.isFile (src ++ pyPathParts f) = false) :
    ∃ f ∈ cfg.files, fs.isFile (src ++ pyPathParts f) = false
      ∧ Experiment.create fs src dest cfg = (.error (.fileNotFound f), fs)
      ∧ (Experiment.create fs src dest cfg).2.existsPath dest = false := by
  obtain ⟨g, hg, hgf⟩ := hmiss
  have hfind : ∃ f, cfg.files.find?
      (fun f => !fs.isFile (src ++ pyPathParts f)) = some f := by
    cases hf : cfg.files.find? (fun f => !fs.isFile (src ++ pyPathParts f)) with
    | some f => exact ⟨f, rfl⟩
    | none =>
      have := List.find?_eq_none.mp hf g hg
      simp [hgf] at this
  obtain ⟨f, hf⟩ := hfind
  have hmem := List.mem_of_find?_eq_some hf
  have hfile : fs.isFile (src ++ pyPathParts f) = false := by
    have := List.find?_some hf
    simpa using this
  have hcreate : Experiment.create fs src dest cfg
      = (.error (.fileNotFound f), fs) := by
    simp [Experiment.create, hdest, hf]
  exact ⟨f, hmem, hfile, hcreate, by rw [hcreate]; exact hdest⟩

/-- C1, witness: `/w` holds only `a.txt`, the config requires `a.txt` and
`b.txt`, and `/out/e1` does not exist. -/
theorem claim_C1_witness :
    ∃ f ∈ cfgTwo.files, fsFresh.isFile (srcRoot ++ pyPathParts f) = false
      ∧ Experiment.create fsFresh srcRoot destRoot cfgTwo
        = (.error (.fileNotFound f), fsFresh)
      ∧ (Experiment.create fsFresh srcRoot destRoot cfgTwo).2.existsPath
          destRoot = false :=
  claim_C1 fsFresh srcRoot destRoot cfgTwo (by decide)
    ⟨"b.txt", by decide, by decide⟩

/-! ## Claim C10 -/

/-- `isRelativeTo` as propositional prefix containment. -/
theorem isRelativeTo_iff (p base : List String) :
    isRelativeTo p base = true ↔ base <+: p := by
  unfold isRelativeTo
  exact List.isPrefixOf_iff_prefix

/-- The search loop consults `hasWsFile` only on directories whose parent is
relative to home: two predicates agreeing on those directories drive the
loop to the same outcome. -/
theorem searchLoop_congr (home : List String) (f g : List String → Bool)
    (hagree : ∀ d, isRelativeTo (parentDir d) home = true → f d = g d) :
    ∀ fuel d, searchLoop f home fuel d = searchLoop g home fuel d := by
  intro fuel
  induction fuel with
  | zero => intro d; rfl
  | succ n ih =>
    intro d
    unfold searchLoop
    by_cases hc : isRelativeTo (parentDir d) home = true
    · rw [hc, hagree d hc, ih]
    · rw [Bool.eq_false_iff.mpr hc]
      simp

/-- C10: the workspace discovery loop tests a directory for the workspace
config file only when that directory's parent lies inside (or equals) the
home directory: the outcome depends on `hasWsFile` only through such
directories (first conjunct); starting at the home directory itself the
guard fails at once — `InvalidWorkspaceError` is raised without the start
directory ever being examined, even by a predicate that reports a workspace
file everywhere (second conjunct); likewise for any start outside the home
directory (third conjunct).  `2 ≤ home.length` says the home directory lies
strictly below the filesystem root, as `Path.home()` does. -/
theorem claim_C10 (home p : List String) (f g : List String → Bool)
    (hagree : ∀ d, isRelativeTo (parentDir d) home = true → f d = g d)
    (hhome : 2 ≤ home.length) :
    search_parents f home p = search_parents g home p
    ∧ search_parents f home home = .error ()
    ∧ (isRelativeTo p home = false → search_parents f home p = .error ()) := by
  refine ⟨searchLoop_congr home f g hagree _ p, ?_, fun hout => ?_⟩
  · have hpar : parentDir home = home.dropLast := by
      unfold parentDir
      rw [if_neg (by omega)]
    have hrel : isRelativeTo (parentDir home) home = false := by
      rw [Bool.eq_false_iff]
      intro hc
      have := (isRelativeTo_iff _ _).mp hc
      have hlen := this.length_le
      rw [hpar, List.length_dropLast] at hlen
      omega
    unfold search_parents searchLoop
    rw [hrel]
    rfl
  · have hrel : isRelativeTo (parentDir p) home = false := by
      rw [Bool.eq_false_iff]
      intro hc
      have hpre : home <+: parentDir p := (isRelativeTo_iff _ _).mp hc
      have hpp : parentDir p <+: p := by
        unfold parentDir
        by_cases hl : p.length ≤ 1
        · rw [if_pos hl]
        · rw [if_neg hl]
          exact List.dropLast_prefix p
      have : isRelativeTo p home = true :=
        (isRelativeTo_iff _ _).mpr (hpre.trans hpp)
      rw [hout] at this
      exact Bool.false_ne_true this
    unfold search_parents searchLoop
    rw [hrel]
    rfl

/-- C10, witness: with home `/home/u`, starting at `/home/u` itself or at
`/tmp` raises at once, even for a predicate that reports a workspace file in
every directory. -/
theorem claim_C10_witness :
    search_parents (fun _ => true) ["/", "home", "u"] ["/", "home", "u"]
      = .error ()
    ∧ search_parents (fun _ => true) ["/", "home", "u"] ["/", "tmp"]
      = .error () :=
  ⟨(claim_C10 ["/", "home", "u"] ["/", "home", "u"] (fun _ => true)
      (fun _ => true) (fun _ _ => rfl) (by decide)).2.1,
   (claim_C10 ["/", "home", "u"] ["/", "tmp"] (fun _ => true)
      (fun _ => true) (fun _ _ => rfl) (by decide)).2.2 (by decide)⟩

/-! ## Claim C4 -/

/-- `list.remove` raises `ValueError` exactly on elements that do not
occur. -/
theorem removeFirst_eq_none (l : List (List String)) (y : List String)
    (h : y ∉ l) : removeFirst l y = none := by
  induction l with
  | nil => rfl
  | cons x xs ih =>
    unfold removeFirst
    rw [if_neg, ih (fun hy => h (List.mem_cons_of_mem x hy))]
    · rfl
    · intro hxy
      exact h (by rw [← beq_iff_eq.mp hxy]; exact List.mem_cons_self x xs)

/-- Every entry `iterdir` yields is non-empty and has `p` as its parent. -/
theorem childrenOf_shape (fs : FS) (p c : List String)
    (h : c ∈ fs.childrenOf p) : c ≠ [] ∧ c.dropLast = p := by
  unfold FS.childrenOf at h
  have hpred := List.of_mem_filter h
  rw [Bool.and_eq_true] at hpred
  refine ⟨?_, beq_iff_eq.mp hpred.2⟩
  intro hc
  rw [hc] at hpred
  simp at hpred

/-- A child of a non-empty directory path starts with the directory's first
component. -/
theorem head?_of_dropLast (c root : List String) (hne : c ≠ [])
    (hdrop : c.dropLast = root) (hroot : root ≠ []) :
    c.head? = root.head? := by
  cases c with
  | nil => exact absurd rfl hne
  | cons x cs =>
    cases cs with
    | nil =>
      exfalso
      apply hroot
      rw [← hdrop]
      rfl
    | cons y cs' =>
      have : (x :: y :: cs').dropLast = x :: (y :: cs').dropLast := rfl
      rw [this] at hdrop
      rw [← hdrop]
      rfl

/-- C4, amended: `Experiment.run` without `skip_validation` runs
`validate_workdir` first and the subprocess is never invoked when validation
raises; and for any experiment with an absolute root and a non-empty
manifest of relative paths — every experiment `Experiment.create` produces —
validation does raise: when missing files make the scan of the root come up
short, but equally when every manifest file is present and only unexpected
(extra) files exist, because `remaining.remove` compares the absolute paths
`iterdir` yields against the relative manifest entries.  Unexpected files
are therefore not advisory: they too prevent the command from being
executed. -/
theorem claim_C4 (manifest : List (List String)) (fs : FS)
    (root : List String)
    (hroot : root.head? = some "/")
    (hman : manifest ≠ [])
    (hrel : ∀ m ∈ manifest, m.head? ≠ some "/") :
    ∃ e, validate_workdir manifest fs root = .error e
      ∧ Experiment.run false manifest fs root = .error e := by
  have hroot_ne : root ≠ [] := by
    intro h
    rw [h] at hroot
    simp at hroot
  have hie : manifest.isEmpty = false := by
    cases manifest with
    | nil => exact absurd rfl hman
    | cons a l => rfl
  have hrun : ∀ e, validate_workdir manifest fs root = .error e →
      Experiment.run false manifest fs root = .error e := by
    intro e hv
    simp [Experiment.run, hv]
  cases hch : fs.childrenOf root with
  | nil =>
    have hv : validate_workdir manifest fs root = .error .unexpectedFiles := by
      simp [validate_workdir, hch, validateSubdir, hie]
    exact ⟨_, hv, hrun _ hv⟩
  | cons c rest =>
    have hcmem : c ∈ fs.childrenOf root := by
      rw [hch]
      exact List.mem_cons_self c rest
    obtain ⟨hcne, hcdrop⟩ := childrenOf_shape fs root c hcmem
    cases hdir : fs.isDir c with
    | true =>
      have hv : validate_workdir manifest fs root
          = .error (.uncaught .nameError) := by
        simp [validate_workdir, hch, validateSubdir, hdir]
      exact ⟨_, hv, hrun _ hv⟩
    | false =>
      have hhead : c.head? = some "/" := by
        rw [head?_of_dropLast c root hcne hcdrop hroot_ne, hroot]
      have hnm : c ∉ manifest := fun hmem => hrel c hmem hhead
      have hrm : removeFirst manifest c = none := removeFirst_eq_none _ _ hnm
      have hv : validate_workdir manifest fs root = .error .missingFiles := by
        simp [validate_workdir, hch, validateSubdir, hdir, hrm]
      exact ⟨_, hv, hrun _ hv⟩

/-- A snapshot where `/out/e1` holds every manifest file (`a.txt`) plus one
unexpected extra file. -/
def fsExtra : FS :=
  { files := [(["/", "out", "e1", "a.txt"], "A"),
              (["/", "out", "e1", "extra.txt"], "E")],
    dirs := [["/", "out", "e1"]] }

/-- The manifest listing `a.txt` only, as a relative path. -/
def manifestOne : List (List String) := [["a.txt"]]

/-- C4, counterexample: in `/out/e1` every manifest file is present
(first conjunct) and only one unexpected extra file exists, yet `run`
without `skip_validation` raises `InvalidExperimentError` instead of
invoking the subprocess — unexpected files are not advisory and do block
execution. -/
theorem claim_C4_cex :
    manifestOne.all (fun m => fsExtra.isFile (destRoot ++ m)) = true
    ∧ Experiment.run false manifestOne fsExtra destRoot
      = .error .missingFiles := by decide

/-- C4, witness: the same snapshot instantiates the amended theorem. -/
theorem claim_C4_witness :
    ∃ e, validate_workdir manifestOne fsExtra destRoot = .error e
      ∧ Experiment.run false manifestOne fsExtra destRoot = .error e :=
  claim_C4 manifestOne fsExtra destRoot (by decide) (by decide) (by decide)

/-- C5, amended: substitution is literal `str.replace`, applied once per
token in the fixed source order (repo_root, workspace_root, repo_name,
workspace_name, branch, version, timestamp), each step operating on the
string produced by the previous ones.  Unrecognised tokens such as
`{bogus}` are left untouched and cause no error (first conjunct: with no
recognised token the template passes through unchanged, subject only to the
final absoluteness check).  Because the steps are sequential, a token whose
step comes later and which occurs in a value inserted by an earlier step IS
substituted — in particular, for a template whose only recognised tokens up
to `{branch}` is `{branch}` itself, the result is obtained by substituting
the branch value and then still applying the `{version}` and `{timestamp}`
steps to the substituted string (second conjunct); a branch name containing
`{version}` is therefore expanded, as the counterexample shows concretely.
Tokens of earlier steps inserted by later values are not re-substituted,
their steps having already run.  (A template still containing `{repo_name}`
raises `AttributeError`: `get_worktree_root` is undefined.) -/
theorem claim_C5 (ctx : PathContext) (t : String) :
    (noRecognizedToken t = true →
      parse_experiment_path ctx t =
        if pyPathIsAbsolute t = true then .ok t else .error .invalidPath)
    ∧ (pyContains t "\x7brepo_root\x7d" = false →
       pyContains t "\x7bworkspace_root\x7d" = false →
       pyContains t "\x7brepo_name\x7d" = false →
       pyContains t "\x7bworkspace_name\x7d" = false →
       pyContains t "\x7bbranch\x7d" = true →
        parse_experiment_path ctx t =
          (let s1 := pyReplace t "\x7bbranch\x7d" ctx.branch
           let s2 := if pyContains s1 "\x7bversion\x7d" then
             pyReplace s1 "\x7bversion\x7d" ctx.version else s1
           let s3 := if pyContains s2 "\x7btimestamp\x7d" then
             pyReplace s2 "\x7btimestamp\x7d" ctx.timestamp else s2
           if pyPathIsAbsolute s3 = true then .ok s3 else .error .invalidPath)) := by
  constructor
  · intro h
    simp only [noRecognizedToken, Bool.not_eq_eq_eq_not, Bool.not_true,
      Bool.or_eq_false_iff] at h
    obtain ⟨⟨⟨⟨⟨⟨h1, h2⟩, h3⟩, h4⟩, h5⟩, h6⟩, h7⟩ := h
    simp [parse_experiment_path, h1, h2, h3, h4, h5, h6, h7]
  · intro h1 h2 h3 h4 h5
    simp [parse_experiment_path, h1, h2, h3, h4, h5]

/-! ## Claim C7 -/

/-- Writing a file does not change the recorded directories. -/
theorem FS.writeFile_dirs (fs : FS) (p : List String) (c : String) :
    (fs.writeFile p c).dirs = fs.dirs := rfl

/-- Copying a file does not change the recorded directories. -/
theorem FS.copyFile_dirs (fs : FS) (a b : List String) :
    (fs.copyFile a b).dirs = fs.dirs := by
  unfold FS.copyFile
  cases fs.files.find? (fun e => e.1 == a) <;> rfl

/-- `mkdirParents` prepends the ancestors. -/
theorem FS.mkdirParents_dirs (fs : FS) (p : List String) :
    (fs.mkdirParents p).dirs = ancestorsOf p ++ fs.dirs := rfl

/-- A non-empty path is among its own ancestors. -/
theorem mem_ancestorsOf_self (p : List String) (h : p ≠ []) :
    p ∈ ancestorsOf p := by
  unfold ancestorsOf
  have hl : 0 < p.length := List.length_pos.mpr h
  refine List.mem_map.mpr ⟨p.length - 1, List.mem_range.mpr (by omega), ?_⟩
  have he : p.length - 1 + 1 = p.length := by omega
  rw [he, List.take_length]

/-- The copy loop only adds directories: membership in `dirs` is
preserved. -/
theorem copyFold_dirs_mem (src dest : List String) (l : List String)
    (acc : FS) (d : List String) (h : d ∈ acc.dirs) :
    d ∈ (l.foldl (copyStep src dest) acc).dirs := by
  induction l generalizing acc with
  | nil => exact h
  | cons f rest ih =>
    rw [List.foldl_cons]
    refine ih _ ?_
    unfold copyStep
    rw [FS.copyFile_dirs, FS.mkdirParents_dirs]
    exact List.mem_append_right _ h

/-- What a successful `Experiment.create` guarantees about the resulting
snapshot: the destination is now a directory and the dumped config file is
one of its entries. -/
theorem create_ok_facts (fs fs' : FS) (src dest : List String)
    (cfg : ExperimentConfig) (hd : dest ≠ [])
    (h : Experiment.create fs src dest cfg = (.ok (), fs')) :
    fs'.isDir dest = true
    ∧ (dest ++ [EXPERIMENT_CONFIG_FILE]) ∈ fs'.files.map Prod.fst := by
  unfold Experiment.create at h
  split at h
  · simp at h
  · split at h
    · simp at h
    · split at h
      · simp at h
      · rw [Prod.mk.injEq] at h
        have hfs : fs' = ((((cfg.files.foldl (copyStep src dest)
            (fs.mkdirParents dest)).writeFile (dest ++ [".gitignore"])
              (gitignoreText cfg.files)).writeFile
                (dest ++ [EXPERIMENT_CONFIG_FILE]) (storedConfigText cfg))) :=
          h.2.symm
        subst hfs
        constructor
        · show (_ : FS).dirs.contains dest = true
          rw [FS.writeFile_dirs, FS.writeFile_dirs]
          refine List.elem_eq_true_of_mem ?_
          refine copyFold_dirs_mem src dest cfg.files _ dest ?_
          rw [FS.mkdirParents_dirs]
          exact List.mem_append_left _ (mem_ancestorsOf_self dest hd)
        · exact List.mem_map.mpr
            ⟨(dest ++ [EXPERIMENT_CONFIG_FILE], storedConfigText cfg),
              List.mem_cons_self _ _, rfl⟩

/-- C7: materialising into a destination that exists as a non-empty
directory fails with `FileExistsError` before any file is copied — the
snapshot is returned unchanged (first conjunct); materialising into an
existing-but-empty directory succeeds when the required files are present
(second conjunct); and materialising twice into the same destination fails
the second time with `FileExistsError`, the first run having left at least
the dumped config file in the destination (third conjunct). -/
theorem claim_C7 (fs : FS) (src dest : List String) (cfg : ExperimentConfig)
    (hd : dest ≠ []) :
    (fs.isDir dest = true → (fs.childrenOf dest).isEmpty = false →
      Experiment.create fs src dest cfg = (.error .fileExists, fs))
    ∧ (fs.isDir dest = true → (fs.childrenOf dest).isEmpty = true →
        (∀ f ∈ cfg.files, fs.isFile (src ++ pyPathParts f) = true) →
        (Experiment.create fs src dest cfg).1 = .ok ())
    ∧ (∀ fs', Experiment.create fs src dest cfg = (.ok (), fs') →
        (Experiment.create fs' src dest cfg).1 = .error .fileExists) := by
  refine ⟨fun hdir hch => ?_, fun hdir hch hall => ?_, fun fs' h => ?_⟩
  · simp [Experiment.create, FS.existsPath, hdir, hch]
  · have hfind : cfg.files.find?
        (fun f => !fs.isFile (src ++ pyPathParts f)) = none :=
      List.find?_eq_none.mpr (fun f hf => by simp [hall f hf])
    simp [Experiment.create, FS.existsPath, hdir, hch, hfind]
  · obtain ⟨hdir', hmem⟩ := create_ok_facts fs fs' src dest cfg hd h
    have hchild : (dest ++ [EXPERIMENT_CONFIG_FILE]) ∈ fs'.childrenOf dest := by
      unfold FS.childrenOf
      refine List.mem_filter.mpr ⟨List.mem_append_left _ hmem, ?_⟩
      rw [Bool.and_eq_true]
      constructor
      · simp
      · rw [beq_iff_eq, List.dropLast_concat]
    have hne : (fs'.childrenOf dest).isEmpty = false := by
      cases he : (fs'.childrenOf dest).isEmpty
      · rfl
      · rw [List.isEmpty_iff] at he
        rw [he] at hchild
        simp at hchild
    simp [Experiment.create, FS.existsPath, hdir', hne]

/-- A snapshot where the destination `/out/e1` already exists and holds a
file. -/
def fsDestBusy : FS :=
  { files := [(["/", "w", "a.txt"], "A"), (["/", "out", "e1", "x.txt"], "X")],
    dirs := [["/", "w"], ["/", "out", "e1"]] }

/-- A snapshot where the destination `/out/e1` exists but is empty. -/
def fsDestEmpty : FS :=
  { files := [(["/", "w", "a.txt"], "A")],
    dirs := [["/", "w"], ["/", "out", "e1"]] }

/-- C7, witness: a busy destination is a `FileExistsError` with the snapshot
unchanged; an empty destination succeeds; creating again over the first
run's output is a `FileExistsError`. -/
theorem claim_C7_witness :
    Experiment.create fsDestBusy srcRoot destRoot cfgOne
      = (.error .fileExists, fsDestBusy)
    ∧ (Experiment.create fsDestEmpty srcRoot destRoot cfgOne).1 = .ok ()
    ∧ (Experiment.create
        (Experiment.create fsDestEmpty srcRoot destRoot cfgOne).2
        srcRoot destRoot cfgOne).1 = .error .fileExists :=
  ⟨(claim_C7 fsDestBusy srcRoot destRoot cfgOne (by decide)).1
      (by decide) (by decide),
   (claim_C7 fsDestEmpty srcRoot destRoot cfgOne (by decide)).2.1
      (by decide) (by decide) (by decide),
   (claim_C7 fsDestEmpty srcRoot destRoot cfgOne (by decide)).2.2
      (Experiment.create fsDestEmpty srcRoot destRoot cfgOne).2 (by decide)⟩
